import Mathlib

/-!
Verification of the answer-evaluation pipeline of `src/evaluation/evaluation.service.ts`.

The TypeScript service is shallowly embedded here:
* strings are `List Char` (Unicode scalar values, as in JS strings over the BMP
  characters this code manipulates);
* JS floating-point arithmetic is modelled exactly: integer-valued quantities as
  `Nat`/`Int`, ratio comparisons against decimal constants in exact
  cross-multiplied integer form (each carries a comment with the source
  expression), and the similarity/score arithmetic over `ℝ` with
  `Math.round x = ⌊x + 1/2⌋`;
* the external embedding/generation providers are universally quantified
  parameters (vectors, booleans, per-attempt outcomes), so theorems hold for
  every provider behaviour;
* the Korean stop-word list (imported by the service from a module that is not
  part of the evaluated sources) is a parameter `stop`; no theorem depends on
  its contents.
-/

/-- JS `\s` white-space characters (as used by `String.prototype.trim` and the
`\s` regex class). -/
def isJsWhitespace (c : Char) : Bool :=
  c = ' ' || c = '\t' || c = '\n' || c = '\r' ||
  c.toNat = 11 || c.toNat = 12 || c.toNat = 0xA0 || c.toNat = 0x1680 ||
  (0x2000 ≤ c.toNat && c.toNat ≤ 0x200A) ||
  c.toNat = 0x2028 || c.toNat = 0x2029 || c.toNat = 0x202F ||
  c.toNat = 0x205F || c.toNat = 0x3000 || c.toNat = 0xFEFF

/-- `String.prototype.trim`. -/
def jsTrim (s : List Char) : List Char :=
  ((s.dropWhile isJsWhitespace).reverse.dropWhile isJsWhitespace).reverse

/-- `String.prototype.toLowerCase`, restricted to ASCII letters (Hangul
syllables and the other characters this service manipulates are unaffected by
Unicode lower-casing). -/
def toLowerChar (c : Char) : Char :=
  if 'A' ≤ c && c ≤ 'Z' then Char.ofNat (c.toNat + 32) else c

/-- Lower-casing of a whole string. -/
def jsToLower (s : List Char) : List Char := s.map toLowerChar

/-- Hangul syllable block 가..힣, the `가-힣` regex range. -/
def isHangulSyllable (c : Char) : Bool :=
  0xAC00 ≤ c.toNat && c.toNat ≤ 0xD7A3

/-- ASCII letter, the `a-zA-Z` regex range. -/
def isAsciiLetter (c : Char) : Bool :=
  ('a' ≤ c && c ≤ 'z') || ('A' ≤ c && c ≤ 'Z')

/-- ASCII digit, the `\d` regex class. -/
def isAsciiDigit (c : Char) : Bool := '0' ≤ c && c ≤ '9'

/-- The `[\w가-힣]` regex class (JS `\w` without the `u` flag is
`[A-Za-z0-9_]`). -/
def isWordChar (c : Char) : Bool :=
  isAsciiLetter c || isAsciiDigit c || c = '_' || isHangulSyllable c

/-- Maximal runs of characters satisfying `p`: the semantics of
`str.match(/[class]+/g)` for a single character class. -/
def charRuns (p : Char → Bool) (s : List Char) : List (List Char) :=
  (s.splitOnP (fun c => !(p c))).filter (fun w => !w.isEmpty)

/-- Recursion core of `scriptRuns`; the fuel (initialised to the text length,
an upper bound on the number of steps, each of which consumes at least one
character) makes the recursion structural so that it evaluates inside the
kernel. -/
def scriptRunsAux : Nat → List Char → List (List Char)
  | 0, _ => []
  | _, [] => []
  | fuel + 1, c :: cs =>
    if isHangulSyllable c then
      (c :: cs.takeWhile isHangulSyllable) :: scriptRunsAux fuel (cs.dropWhile isHangulSyllable)
    else if isAsciiLetter c then
      (c :: cs.takeWhile isAsciiLetter) :: scriptRunsAux fuel (cs.dropWhile isAsciiLetter)
    else
      scriptRunsAux fuel cs

/-- Maximal single-script runs: the semantics of
`str.match(/[가-힣]+|[a-zA-Z]+/g)` (a run never mixes the two classes, because
the regex alternation matches one class at a time). -/
def scriptRuns (s : List Char) : List (List Char) :=
  scriptRunsAux s.length s

/-- Recursion core of `countPrefixRepeats`, fuelled like `scriptRunsAux`
(every source-loop iteration advances `pos` by `patternLen ≥ 2`, so the text
length bounds the iteration count). -/
def countPrefixRepeatsAux (pattern : List Char) (patternLen : Nat) : Nat → List Char → Nat
  | 0, _ => 0
  | fuel + 1, rest =>
    if patternLen ≤ rest.length ∧ rest.take patternLen = pattern then
      1 + countPrefixRepeatsAux pattern patternLen fuel (rest.drop patternLen)
    else 0

/-- The repeat-counting loop of `isMeaninglessAnswer`: starting from the left
end of `rest`, how many contiguous copies of `pattern` appear (`patternLen` is
the nominal slice width of the source loop, which can exceed `pattern.length`
when the text is shorter than the requested prefix). -/
def countPrefixRepeats (pattern : List Char) (patternLen : Nat) (rest : List Char) : Nat :=
  countPrefixRepeatsAux pattern patternLen rest.length rest

/-- Largest single-character frequency of the text (the maximum of the
`charFreq` map of the source; `0` for the empty text, where the source computes
`-Infinity` and every later comparison is likewise false). -/
def maxCharFreq (t : List Char) : Nat :=
  (t.map (fun c => t.count c)).foldr max 0

/-- First check of `isMeaninglessAnswer`:
`maxCharFreq / text.length > 0.8` in exact integer form. -/
def charFreqCheck (t : List Char) : Bool :=
  5 * maxCharFreq t > 4 * t.length

/-- Second check of `isMeaninglessAnswer`: some 2–4 character prefix pattern
repeats contiguously ≥ 5 times and covers more than 70 % of the text
(`(repeatCount * patternLen) / text.length > 0.7` in exact integer form). -/
def prefixRepeatCheck (t : List Char) : Bool :=
  [2, 3, 4].any fun patternLen =>
    let repeatCount := countPrefixRepeats (t.take patternLen) patternLen t
    decide (repeatCount ≥ 5) && decide (10 * (repeatCount * patternLen) > 7 * t.length)

/-- The "meaningful word" count of `isMeaninglessAnswer`:
`(text.match(/[가-힣]+|[a-zA-Z]+/g) || []).filter(w => w.length >= 2)`. -/
def meaningfulWordCount (t : List Char) : Nat :=
  ((scriptRuns t).filter (fun w => w.length ≥ 2)).length

/-- Third check of `isMeaninglessAnswer`: fewer than two meaningful words in a
text longer than 20 characters. -/
def fewMeaningfulWordsCheck (t : List Char) : Bool :=
  decide (meaningfulWordCount t < 2) && decide (t.length > 20)

/-- The keyboard-mashing clusters of `isMeaninglessAnswer` with the minimum
run length of their regexes (`([qwer]{4,})\1+` … `([123]{3,})\1+`). -/
def keyboardClusters : List (List Char × Nat) :=
  [(['q', 'w', 'e', 'r'], 4), (['a', 's', 'd', 'f'], 4), (['z', 'x', 'c', 'v'], 4),
   (['u', 'i', 'o', 'p'], 4), (['h', 'j', 'k', 'l'], 4), (['1', '2', '3'], 3)]

/-- `([cluster]{minLen,})\1+` matches somewhere in `t` iff some slice of
length ≥ `minLen`, drawn entirely from the cluster, is immediately followed by
a second copy of itself. -/
def hasDoubledClusterRun (cluster : List Char) (minLen : Nat) (t : List Char) : Bool :=
  (List.range (t.length + 1)).any fun i =>
    (List.range (t.length + 1)).any fun len =>
      decide (minLen ≤ len) && decide (i + 2 * len ≤ t.length) &&
      ((t.drop i).take len).all (fun c => cluster.contains c) &&
      ((t.drop i).take len) == ((t.drop (i + len)).take len)

/-- Fourth check of `isMeaninglessAnswer`: one of the keyboard-mashing regexes
matches. The letter patterns carry the `i` flag, so the test runs on the
lower-cased text (digits are unaffected by lower-casing). -/
def keyboardMashCheck (t : List Char) : Bool :=
  keyboardClusters.any fun cl => hasDoubledClusterRun cl.1 cl.2 (jsToLower t)

/-- `isMeaninglessAnswer` (the source's sequence of early `return true`
checks, as a disjunction). -/
def isMeaninglessAnswer (answer : List Char) : Bool :=
  let text := jsTrim answer
  charFreqCheck text || prefixRepeatCheck text ||
  fewMeaningfulWordsCheck text || keyboardMashCheck text

/-! ## Copy/Plagiarism Detector (`detectQuestionCopy` and its helpers) -/

/-- The verdict record of `detectQuestionCopy`. -/
structure CopyVerdict where
  isCopied : Bool
  reason : String
  copyRatio : Option ℚ

/-- The normalization applied to both strings before every check:
`toLowerCase().replace(/[^\w가-힣]/g, "").trim()`. -/
def normalizeForCopy (s : List Char) : List Char :=
  jsTrim ((jsToLower s).filter isWordChar)

/-- `String.prototype.includes` (substring containment). -/
def containsSublist (needle hay : List Char) : Bool :=
  (List.range (hay.length + 1)).any fun i => needle.isPrefixOf (hay.drop i)

/-- Length of the longest common prefix of two strings. -/
def commonRunLen : List Char → List Char → Nat
  | a :: as, b :: bs => if a = b then 1 + commonRunLen as bs else 0
  | _, _ => 0

/-- `findLongestCommonSubstring`: the source computes, with a rolling two-row
dynamic-programming table, the maximal length of a common contiguous substring;
that maximum equals the maximum over all start positions `(i, j)` of the
common-prefix length of the two suffixes. -/
def findLongestCommonSubstring (str1 str2 : List Char) : Nat :=
  ((List.range (str1.length + 1)).map fun i =>
    ((List.range (str2.length + 1)).map fun j =>
      commonRunLen (str1.drop i) (str2.drop j)).foldr max 0).foldr max 0

/-- The distinct character `n`-grams of a string (the `Set` built by
`getNgrams`; the loop bound `i <= str.length - n` yields no `n`-gram when the
string is shorter than `n`). -/
def ngrams (n : Nat) (s : List Char) : List (List Char) :=
  ((List.range (s.length + 1 - n)).map fun i => (s.drop i).take n).dedup

/-- Numerator of `calculateNgramOverlap`: distinct `n`-grams of `str1` that
also occur in `str2`. -/
def ngramMatchCount (n : Nat) (str1 str2 : List Char) : Nat :=
  (ngrams n str1).countP fun g => (ngrams n str2).contains g

/-- One row-update step of the Levenshtein DP.  Arguments: the current
character `c` of `str1`, the remaining characters of `str2`, the entry
`dp[i-1][j-1]` (diagonal), the remaining previous row `dp[i-1][j...]`, and the
freshly computed `dp[i][j-1]` (left). -/
def levGo (c : Char) : List Char → Nat → List Nat → Nat → List Nat
  | [], _, _, _ => []
  | _ :: _, _, [], _ => []
  | b :: bs, diag, above :: aboveTail, left =>
    let cur := if c = b then diag else 1 + min (min (above) (left)) diag
    cur :: levGo c bs above aboveTail cur

/-- Row iteration of the Levenshtein DP (`i` is the number of `str1`
characters already consumed). -/
def levFold (str2 : List Char) : List Nat → List Char → Nat → List Nat
  | prev, [], _ => prev
  | prev, c :: cs, i =>
    match prev with
    | [] => []
    | p0 :: pTail => levFold str2 ((i + 1) :: levGo c str2 p0 pTail (i + 1)) cs (i + 1)

/-- The full `m×n` Levenshtein dynamic program of the source (final cell of the
last row; the first row is `dp[0][j] = j`). -/
def levDistance (str1 str2 : List Char) : Nat :=
  (levFold str2 (List.range (str2.length + 1)) str1 0).getLastD 0

/-- `calculateLevenshteinDistance`: short-circuits to `max(m, n)` when the
length difference exceeds half the longer length
(`Math.abs(m - n) > Math.max(m, n) * 0.5` in exact integer form). -/
def calculateLevenshteinDistance (str1 str2 : List Char) : Nat :=
  let m := str1.length
  let n := str2.length
  if 2 * (max m n - min m n) > max m n then max m n
  else levDistance str1 str2

/-- The `/[가-힣]{2,}|[a-zA-Z]{2,}/g` word extraction of copy-rule 6. -/
def wordsMin2 (s : List Char) : List (List Char) :=
  (scriptRuns s).filter fun w => w.length ≥ 2

/-- Copy-rule 1: exact equality of the normalized strings. -/
def copyRule1Hit (question answer : List Char) : Bool :=
  normalizeForCopy question == normalizeForCopy answer

/-- Copy-rule 2: the normalized answer contains the whole normalized question
and is at most a little longer
(`normalizedAnswer.length < normalizedQuestion.length * 1.3` in exact integer
form). -/
def copyRule2Hit (question answer : List Char) : Bool :=
  containsSublist (normalizeForCopy question) (normalizeForCopy answer) &&
  decide (10 * (normalizeForCopy answer).length < 13 * (normalizeForCopy question).length)

/-- Copy-rule 3: the longest common substring covers more than 40 % of the
normalized question (`lcsLength / normalizedQuestion.length > 0.4` in exact
integer form) and is at least 15 characters long. -/
def copyRule3Hit (question answer : List Char) : Bool :=
  let lcsLength := findLongestCommonSubstring (normalizeForCopy question) (normalizeForCopy answer)
  decide (5 * lcsLength > 2 * (normalizeForCopy question).length) && decide (lcsLength ≥ 15)

/-- Copy-rule 4: more than half of the question's distinct 4-grams occur in the
answer (`matchCount / ngrams1.size > 0.5` in exact integer form; no match when
the question has no 4-gram, where the source returns ratio 0). -/
def copyRule4Hit (question answer : List Char) : Bool :=
  decide (2 * ngramMatchCount 4 (normalizeForCopy question) (normalizeForCopy answer) >
    (ngrams 4 (normalizeForCopy question)).length)

/-- Copy-rule 5: edit-distance similarity `1 - distance / maxLen > 0.85`
(exact integer form `20 * (maxLen - distance) > 17 * maxLen`; the distance
never exceeds `maxLen`, and for `maxLen = 0` both forms are false, the source
comparing `NaN`). -/
def copyRule5Hit (question answer : List Char) : Bool :=
  let maxLen := max (normalizeForCopy question).length (normalizeForCopy answer).length
  let editDistance := calculateLevenshteinDistance (normalizeForCopy question) (normalizeForCopy answer)
  decide (20 * (maxLen - editDistance) > 17 * maxLen)

/-- The stop-word-filtered words of the normalized question used by
copy-rule 6. -/
def copyQuestionWords (stop : List (List Char)) (question : List Char) : List (List Char) :=
  (wordsMin2 (normalizeForCopy question)).filter fun w => !(stop.contains w)

/-- The (unfiltered) words of the normalized answer used by copy-rule 6. -/
def copyAnswerWords (answer : List Char) : List (List Char) :=
  wordsMin2 (normalizeForCopy answer)

/-- Number of answer words that occur among the question's words
(`matchedInAnswer.length`). -/
def copyMatchedCount (stop : List (List Char)) (question answer : List Char) : Nat :=
  (copyAnswerWords answer).countP fun w => (copyQuestionWords stop question).contains w

/-- Copy-rule 6: both word lists non-empty, more than 70 % of the answer's
words come from the question (`matchedInAnswer.length / answerWords.length >
0.7` in exact integer form), and the RAW answer is shorter than 1.8 times the
RAW question (`answer.length < question.length * 1.8` on the un-normalized
strings — this is the source's comparison). -/
def copyRule6Hit (stop : List (List Char)) (question answer : List Char) : Bool :=
  decide (0 < (copyQuestionWords stop question).length) &&
  decide (0 < (copyAnswerWords answer).length) &&
  decide (10 * copyMatchedCount stop question answer > 7 * (copyAnswerWords answer).length) &&
  decide (10 * answer.length < 18 * question.length)

/-- `detectQuestionCopy`: the six checks in source order, returning on the
first hit with the source's reason string and copy ratio. -/
def detectQuestionCopy (stop : List (List Char)) (question answer : List Char) : CopyVerdict :=
  if copyRule1Hit question answer then
    ⟨true, "질문을 그대로 복사함", some 1⟩
  else if copyRule2Hit question answer then
    ⟨true, "질문을 거의 그대로 포함한 답변",
      some (((normalizeForCopy question).length : ℚ) / (normalizeForCopy answer).length)⟩
  else if copyRule3Hit question answer then
    ⟨true, "질문의 상당 부분을 그대로 복사함",
      some ((findLongestCommonSubstring (normalizeForCopy question) (normalizeForCopy answer) : ℚ) /
        (normalizeForCopy question).length)⟩
  else if copyRule4Hit question answer then
    ⟨true, "질문 문구를 여러 곳에서 복사함",
      some ((ngramMatchCount 4 (normalizeForCopy question) (normalizeForCopy answer) : ℚ) /
        (ngrams 4 (normalizeForCopy question)).length)⟩
  else if copyRule5Hit question answer then
    ⟨true, "질문과 매우 유사한 답변 (약간의 변형만 있음)",
      some (1 - (calculateLevenshteinDistance (normalizeForCopy question) (normalizeForCopy answer) : ℚ) /
        (max (normalizeForCopy question).length (normalizeForCopy answer).length))⟩
  else if copyRule6Hit stop question answer then
    ⟨true, "답변 대부분이 질문의 단어로만 구성됨",
      some ((copyMatchedCount stop question answer : ℚ) / (copyAnswerWords answer).length)⟩
  else
    ⟨false, "", none⟩

/-! ## Similarity Kernel (`cosineSimilarity`) -/

/-- The dot product accumulated by the loop of `cosineSimilarity` (`normA` and
`normB` are `dotProduct v v`). -/
def dotProduct : List ℝ → List ℝ → ℝ
  | a :: as, b :: bs => a * b + dotProduct as bs
  | _, _ => 0

/-- `cosineSimilarity`: returns `0` on empty input or a length mismatch and
when the denominator `√normA * √normB` is `0`; otherwise the normalized dot
product. -/
noncomputable def cosineSimilarity (vecA vecB : List ℝ) : ℝ :=
  if vecA.length = 0 ∨ vecB.length = 0 ∨ vecA.length ≠ vecB.length then 0
  else if Real.sqrt (dotProduct vecA vecA) * Real.sqrt (dotProduct vecB vecB) = 0 then 0
  else dotProduct vecA vecB / (Real.sqrt (dotProduct vecA vecA) * Real.sqrt (dotProduct vecB vecB))

/-- JS `Math.round`: half-up rounding, also for negative arguments
(`Math.round(-32.83) = -33`, `Math.round(-3.5) = -3`). -/
noncomputable def mathRound (x : ℝ) : ℤ := ⌊x + 1 / 2⌋

/-! ## Scoring Engine sub-scores -/

/-- `calculateSemanticScore` (the unused `_questionAnswerSimilarity` parameter
of the source is dropped): piecewise-linear mapping of the reference-answer
similarity. -/
noncomputable def calculateSemanticScore (referenceAnswerSimilarity : ℝ) : ℤ :=
  if referenceAnswerSimilarity < 0.3 then
    mathRound (referenceAnswerSimilarity * 33.33)
  else if referenceAnswerSimilarity < 0.45 then
    mathRound (10 + (referenceAnswerSimilarity - 0.3) * 100)
  else if referenceAnswerSimilarity < 0.6 then
    mathRound (25 + (referenceAnswerSimilarity - 0.45) * 66.67)
  else
    mathRound (35 + min 5 ((referenceAnswerSimilarity - 0.6) * 12.5))

/-- The question keywords of `calculateRelevanceScore`: lower-cased
`[\w가-힣]+` tokens of length > 1 that are not stop words. -/
def relevanceQuestionWords (stop : List (List Char)) (question : List Char) : List (List Char) :=
  (charRuns isWordChar (jsToLower question)).filter fun w =>
    decide (w.length > 1) && !(stop.contains w)

/-- The answer word set of `calculateRelevanceScore` (unfiltered lower-cased
tokens). -/
def relevanceAnswerWords (answer : List Char) : List (List Char) :=
  charRuns isWordChar (jsToLower answer)

/-- `matchedKeywords` of `calculateRelevanceScore`. -/
def relevanceMatchedCount (stop : List (List Char)) (question answer : List Char) : Nat :=
  (relevanceQuestionWords stop question).countP fun w =>
    (relevanceAnswerWords answer).contains w

/-- `keywordMatchRatio`: matched / total question keywords, `0` when the
question has no keywords. -/
def keywordMatchRatio (stop : List (List Char)) (question answer : List Char) : ℚ :=
  if 0 < (relevanceQuestionWords stop question).length then
    (relevanceMatchedCount stop question answer : ℚ) / (relevanceQuestionWords stop question).length
  else 0

/-- `calculateRelevanceScore`: 15 points from the keyword-match ratio plus up
to 10 points from the embedding similarity mapped linearly from 0.2, rounded. -/
noncomputable def calculateRelevanceScore (stop : List (List Char))
    (question answer : List Char) (embeddingSimilarity : ℝ) : ℤ :=
  mathRound ((keywordMatchRatio stop question answer : ℝ) * 15 +
    max 0 (min 10 ((embeddingSimilarity - 0.2) * 33.33)))

/-- The example-phrase regex `/예를 들[어면]|예시|사례|경우/` of
`calculateQualityScore`. -/
def hasExamplePhrase (answer : List Char) : Bool :=
  containsSublist ("예를 들어".toList) answer || containsSublist ("예를 들면".toList) answer ||
  containsSublist ("예시".toList) answer || containsSublist ("사례".toList) answer ||
  containsSublist ("경우".toList) answer

/-- `str.split(/\s+/)`, up to empty fragments (the source only ever asks
whether some fragment is longer than a bound, so collapsing runs of
white-space is irrelevant and fragments are split at every white-space
character). -/
def whitespaceSplit (s : List Char) : List (List Char) :=
  s.splitOnP isJsWhitespace

/-- The sentence count of `calculateQualityScore`:
`answer.split(/[.!?]/).filter(s => s.trim().length > 0)`. -/
def sentenceCount (answer : List Char) : Nat :=
  ((answer.splitOnP fun c => c = '.' || c = '!' || c = '?').filter
    fun s => decide (0 < (jsTrim s).length)).length

/-- `calculateQualityScore`: length tier + sentence tier + capped specificity
score, capped at 35, together with the issues the source pushes (the outer
`Math.round` is the identity on this integer value). -/
def calculateQualityScore (answer : List Char) : ℕ × List String :=
  let length := (jsTrim answer).length
  let lengthScore : ℕ := if length < 20 then 5 else if length < 50 then 10
    else if length < 80 then 13 else 15
  let lengthIssues : List String := if length < 20 then ["답변이 다소 짧습니다"] else []
  let sentences := sentenceCount answer
  let sentenceScore : ℕ := if sentences = 1 then 5 else if sentences < 3 then 8
    else if sentences ≤ 5 then 10 else 9
  let sentenceIssues : List String := if sentences = 1 then ["단일 문장으로 구성됨"] else []
  let specificityScore : ℕ :=
    5 + (if hasExamplePhrase answer then 2 else 0) +
    (if answer.any isAsciiDigit then 2 else 0) +
    (if (whitespaceSplit answer).any (fun w => w.length > 4) then 3 else 0)
  let specIssues : List String :=
    if specificityScore < 7 then ["구체적인 예시나 설명이 부족합니다"] else []
  (min 35 (lengthScore + sentenceScore + min 10 specificityScore),
    lengthIssues ++ sentenceIssues ++ specIssues)

/-- `calculatePenalty` (the two unused embedding parameters of the source are
dropped): +5 when some word longer than 2 characters repeats more than 7
times (the maximum over an empty frequency map is `-Infinity` in the source
and `0` here — the comparison with 7 is false either way), +15 when the
answer has fewer than 5 words. -/
def calculatePenalty (answer : List Char) : ℕ × List String :=
  let words := charRuns isWordChar (jsToLower answer)
  let freqWords := words.filter fun w => decide (w.length > 2)
  let maxFreq := (freqWords.map fun w => freqWords.count w).foldr max 0
  let repeatPart : ℕ × List String :=
    if maxFreq > 7 then (5, ["동일한 단어가 과도하게 반복됩니다"]) else (0, [])
  let shortPart : ℕ × List String :=
    if words.length < 5 then (15, ["답변의 내용이 부족합니다"]) else (0, [])
  (repeatPart.1 + shortPart.1, repeatPart.2 ++ shortPart.2)

/-! ## Keyword / complexity penalty (`checkRequiredKeywords`) -/

/-- JS regex `.` (dot without the `s` flag): any character except a line
terminator. -/
def isRegexDot (c : Char) : Bool :=
  !(c = '\n' || c = '\r' || c.toNat = 0x2028 || c.toNat = 0x2029)

/-- Test of a JS regex `/a.*b/`: an occurrence of `a` followed, with no line
terminator in between, by an occurrence of `b`. -/
def seqPatternTest (a b s : List Char) : Bool :=
  (List.range (s.length + 1)).any fun i =>
    a.isPrefixOf (s.drop i) &&
    ((List.range (s.length + 1)).any fun j =>
      decide (i + a.length ≤ j) && b.isPrefixOf (s.drop j) &&
      ((s.drop (i + a.length)).take (j - (i + a.length))).all isRegexDot)

/-- A string consisting of a (possibly empty) white-space run followed by a
(possibly empty) run of non-line-terminators: the `\s*.*` middle of the last
complex-question pattern. -/
def wsThenDotRun (t : List Char) : Bool :=
  (List.range (t.length + 1)).any fun k =>
    ((t.take k).all isJsWhitespace) && ((t.drop k).all isRegexDot)

/-- Test of the complex-question regex `/(\?|,|、|\.)\s*.*(\?)/`. -/
def punctThenQuestionTest (s : List Char) : Bool :=
  (List.range s.length).any fun i =>
    (List.range s.length).any fun j =>
      decide (i < j) &&
      (let c := (s.drop i).headD ' '
       c = '?' || c = ',' || c = '、' || c = '.') &&
      ((s.drop j).headD ' ' = '?') &&
      wsThenDotRun ((s.drop (i + 1)).take (j - (i + 1)))

/-- `isComplexQuestion`: one of the `complexQuestionPatterns` regexes matches
the lower-cased question. -/
def isComplexQuestion (questionLower : List Char) : Bool :=
  seqPatternTest ("무엇".toList) ("어떤".toList) questionLower ||
  seqPatternTest ("무엇".toList) ("왜".toList) questionLower ||
  seqPatternTest ("어떤".toList) ("왜".toList) questionLower ||
  seqPatternTest ("나열".toList) ("설명".toList) questionLower ||
  seqPatternTest ("차이".toList) ("설명".toList) questionLower ||
  punctThenQuestionTest questionLower

/-- `requiresSpecificAnswer`: the question mentions one of the
specificity-demanding markers. -/
def requiresSpecificAnswer (questionLower : List Char) : Bool :=
  containsSublist ("무엇".toList) questionLower || containsSublist ("what".toList) questionLower ||
  containsSublist ("어떤".toList) questionLower || containsSublist ("which".toList) questionLower ||
  containsSublist ("나열".toList) questionLower || containsSublist ("list".toList) questionLower ||
  containsSublist ("설명".toList) questionLower || containsSublist ("explain".toList) questionLower ||
  containsSublist ("종류".toList) questionLower || containsSublist ("types".toList) questionLower ||
  containsSublist ("방법".toList) questionLower || containsSublist ("how".toList) questionLower

/-- The question keywords of `checkRequiredKeywords`:
`question.match(/[\w가-힣]{3,}/g)` filtered by the stop-word set on the
lower-cased token (the tokens themselves keep their original case). -/
def requiredQuestionWords (stop : List (List Char)) (question : List Char) : List (List Char) :=
  (charRuns isWordChar question).filter fun w =>
    decide (3 ≤ w.length) && !(stop.contains (jsToLower w))

/-- `mentionedKeywords.length`: question keywords whose lower-cased form
occurs as a substring in the lower-cased answer. -/
def mentionedKeywordCount (stop : List (List Char)) (question answer : List Char) : Nat :=
  (requiredQuestionWords stop question).countP fun w =>
    containsSublist (jsToLower w) (jsToLower answer)

/-- `keywordCoverage`: mentioned / total question keywords, and `1` when the
question yields no keyword. -/
def keywordCoverage (stop : List (List Char)) (question answer : List Char) : ℚ :=
  if 0 < (requiredQuestionWords stop question).length then
    (mentionedKeywordCount stop question answer : ℚ) / (requiredQuestionWords stop question).length
  else 1

/-- The bullet-marker regex `/\n|•|·|-\s/` of `checkRequiredKeywords`. -/
def hasBulletPoints (answer : List Char) : Bool :=
  answer.contains '\n' || answer.contains '•' || answer.contains '·' ||
  ((List.range answer.length).any fun i =>
    ((answer.drop i).headD ' ' = '-') && isJsWhitespace ((answer.drop (i + 1)).headD 'x'))

/-- The complex-question length penalty of `checkRequiredKeywords` (+10 when a
complex question gets an answer shorter than 150 characters). -/
def complexLengthPenalty (question answer : List Char) : ℕ :=
  if isComplexQuestion (jsToLower question) && decide ((jsTrim answer).length < 150) then 10 else 0

/-- The complex-question coverage penalty of `checkRequiredKeywords` (+15 when
a complex question has keyword coverage below 0.3). -/
def complexCoveragePenalty (stop : List (List Char)) (question answer : List Char) : ℕ :=
  if isComplexQuestion (jsToLower question) &&
      decide (keywordCoverage stop question answer < 3 / 10) then 15 else 0

/-- The specificity penalty of `checkRequiredKeywords` (+10 when the question
demands specifics but the answer has no digit, no word longer than 5
characters and no bullet marker). -/
def specificsPenalty (question answer : List Char) : ℕ :=
  if requiresSpecificAnswer (jsToLower question) && !(answer.any isAsciiDigit) &&
      !((whitespaceSplit answer).any fun w => decide (w.length > 5)) &&
      !(hasBulletPoints answer) then 10 else 0

/-- The low-coverage penalty of `checkRequiredKeywords` (+5 when coverage is
below 0.2 and the question has at least 3 keywords). -/
def lowCoveragePenalty (stop : List (List Char)) (question answer : List Char) : ℕ :=
  if decide (keywordCoverage stop question answer < 1 / 5) &&
      decide (3 ≤ (requiredQuestionWords stop question).length) then 5 else 0

/-- `checkRequiredKeywords`: the four additive penalties with their issues in
source order. -/
def checkRequiredKeywords (stop : List (List Char)) (question answer : List Char) :
    ℕ × List String :=
  (complexLengthPenalty question answer + complexCoveragePenalty stop question answer +
    specificsPenalty question answer + lowCoveragePenalty stop question answer,
   (if complexLengthPenalty question answer ≠ 0 then ["복합 질문에 대한 답변이 불충분합니다"] else []) ++
   (if complexCoveragePenalty stop question answer ≠ 0 then ["질문의 핵심 요구사항에 대한 답변이 부족합니다"] else []) ++
   (if specificsPenalty question answer ≠ 0 then ["구체적인 답변이 필요하나 일반론만 제시되었습니다"] else []) ++
   (if lowCoveragePenalty stop question answer ≠ 0 then ["질문의 주요 개념이 답변에 충분히 포함되지 않았습니다"] else []))

/-! ## Final score assembly (`calculateFeedback`) -/

/-- The length-based score cap of `calculateFeedback` (lines 141–155). -/
def applyLengthCap (answerLength : Nat) (finalScore : ℤ) : ℤ :=
  if answerLength < 50 then min finalScore 45
  else if answerLength < 80 then min finalScore 50
  else if answerLength < 120 then min finalScore 60
  else if answerLength < 150 then min finalScore 70
  else if answerLength < 200 then min finalScore 80
  else finalScore

/-- `calculateFeedback`, modelled as the score and issue list of the returned
`FeedbackResult`. The provider behaviour is universally quantified: the three
embeddings are arbitrary vectors and the completeness oracle an arbitrary
boolean. The narrative feedback text is produced only after the score is
final and does not influence it (and when its generation fails the method
throws and returns no result), so it is not part of this model. The outer
`Math.round` around the clamp is the identity because `rawScore` is a sum of
already-rounded integers. -/
noncomputable def calculateFeedback (stop : List (List Char)) (question answer : List Char)
    (questionEmbedding answerEmbedding referenceEmbedding : List ℝ)
    (isComplete : Bool) : ℤ × List String :=
  if (jsTrim answer).length < 10 then (0, ["답변 길이 부족"])
  else if isMeaninglessAnswer answer then (0, ["무의미한 답변"])
  else if (detectQuestionCopy stop question answer).isCopied then
    (0, [(detectQuestionCopy stop question answer).reason])
  else
    let topicSimilarity := cosineSimilarity questionEmbedding answerEmbedding
    if topicSimilarity < 0.25 then
      (if topicSimilarity < 0.15 then 0 else mathRound (topicSimilarity * 20),
       ["질문과 무관한 답변"])
    else
      let questionAnswerSimilarity := cosineSimilarity questionEmbedding answerEmbedding
      let referenceAnswerSimilarity := cosineSimilarity referenceEmbedding answerEmbedding
      let relevanceScore := calculateRelevanceScore stop question answer questionAnswerSimilarity
      let semanticScore := calculateSemanticScore referenceAnswerSimilarity
      let rawScore := relevanceScore + semanticScore +
        ((calculateQualityScore answer).1 : ℤ) - ((calculatePenalty answer).1 : ℤ)
      let clamped := max 0 (min 100 rawScore)
      let answerLength := (jsTrim answer).length
      let capped := applyLengthCap answerLength clamped
      let issues0 := (calculateQualityScore answer).2 ++ (calculatePenalty answer).2
      let issues1 :=
        if answerLength < 50 && !(issues0.contains "답변이 다소 짧습니다") then
          issues0 ++ ["답변이 매우 짧아 점수가 제한됩니다"]
        else issues0
      let afterKeywords := max 0 (capped - ((checkRequiredKeywords stop question answer).1 : ℤ))
      let issues2 := issues1 ++ (checkRequiredKeywords stop question answer).2
      let finalScore := if isComplete then afterKeywords else max 0 (afterKeywords - 20)
      let issues3 :=
        if isComplete then issues2
        else issues2 ++ ["질문의 핵심 요구사항을 충족하지 못했습니다"]
      (finalScore, issues3)

/-! ## Narrative feedback generation (`generateFeedback` / `parseJsonResponse`) -/

/-- The `AiFeedback` interface: the three narrative fields. -/
structure AiFeedback where
  good : String
  improvement : String
  recommendation : String
deriving DecidableEq

/-- The record produced by `parseJsonResponse` before the field validation in
`generateFeedback`: each field as it appears in the parsed JSON object, a
missing field being `none`. -/
structure RawFeedback where
  good : Option String
  improvement : Option String
  recommendation : Option String
deriving DecidableEq

/-- The validation
`if (!feedback.good || !feedback.improvement || !feedback.recommendation) throw new Error("Invalid feedback structure")`
of `generateFeedback`: a missing (`undefined`) or empty field is falsy and
raises; otherwise the three fields are returned. -/
def validateFeedback (r : RawFeedback) : Except String AiFeedback :=
  match r.good, r.improvement, r.recommendation with
  | some g, some im, some rec =>
    if g = "" ∨ im = "" ∨ rec = "" then Except.error "Invalid feedback structure"
    else Except.ok ⟨g, im, rec⟩
  | _, _, _ => Except.error "Invalid feedback structure"

/-- One try-block of `generateFeedback` at attempt index `i`.  The prompt is
built from the same `(question, answer)` pair on every attempt, so the
provider call together with `parseJsonResponse` (direct parse of a trimmed
`{...}` body, then fenced code block, then regex span — pure text processing
whose outcome at attempt `i` is either a parsed record or a parse error) is
summarised by the arbitrary per-attempt outcome `attempts i`; the explicit
field validation follows.  Every failure mode is an `Except.error`, matching
the `catch` of the source which treats provider errors, parse errors and
validation errors alike. -/
def attemptFeedback (attempts : Nat → Except String RawFeedback) (i : Nat) :
    Except String AiFeedback :=
  match attempts i with
  | Except.error e => Except.error e
  | Except.ok raw => validateFeedback raw

/-- `MAX_RETRIES` of `generateFeedback` and `analyzePersonality`. -/
def MAX_RETRIES : Nat := 2

/-- The retry recursion of `generateFeedback`, phrased on the remaining retry
budget (`remaining = MAX_RETRIES - retryCount`, so the source's guard
`retryCount < MAX_RETRIES` is exactly `remaining ≠ 0` and the recursion is
structural).  On final failure the source throws
`BadRequestException("AI 피드백 생성에 실패했습니다: " + e.message)`. -/
def generateFeedbackRec (attempts : Nat → Except String RawFeedback) :
    Nat → Nat → Except String AiFeedback
  | retryCount, remaining =>
    match attemptFeedback attempts retryCount, remaining with
    | Except.ok fb, _ => Except.ok fb
    | Except.error e, 0 => Except.error ("AI 피드백 생성에 실패했습니다: " ++ e)
    | Except.error _, r + 1 => generateFeedbackRec attempts (retryCount + 1) r

/-- `generateFeedback(question, answer)` (entered with `retryCount = 0`). -/
def generateFeedback (attempts : Nat → Except String RawFeedback) :
    Except String AiFeedback :=
  generateFeedbackRec attempts 0 MAX_RETRIES

/-! ## Competency analysis (`analyzePersonality` / `parsePersonalAnalysisResponse`) -/

/-- The six competency scores as produced by the model (arbitrary JSON
numbers, here exact rationals). -/
structure CompetencyScoresQ where
  proactivity : ℚ
  logicalThinking : ℚ
  creativity : ℚ
  careerValues : ℚ
  cooperation : ℚ
  coreValues : ℚ

/-- The `CompetencyScores` interface after clamping (integer fields). -/
structure CompetencyScores where
  proactivity : ℤ
  logicalThinking : ℤ
  creativity : ℤ
  careerValues : ℤ
  cooperation : ℤ
  coreValues : ℤ

/-- The `PersonalAnalysis` interface. -/
structure PersonalAnalysis where
  scores : CompetencyScores
  strengths : String
  improvements : String
  recommendations : String

/-- A successfully JSON-parsed model response with a `scores` object, before
the clamping/defaulting stage of `parsePersonalAnalysisResponse`; text fields
may be missing (`none`) or empty. -/
structure ParsedAnalysis where
  scores : CompetencyScoresQ
  strengths : Option String
  improvements : Option String
  recommendations : Option String

/-- JS `Math.round` on the exact rational denoted by a JSON number. -/
def mathRoundQ (x : ℚ) : ℤ := ⌊x + 1 / 2⌋

/-- `clampScore` of `parsePersonalAnalysisResponse`:
`Math.max(0, Math.min(10, Math.round(score)))`. -/
def clampScore (score : ℚ) : ℤ := max 0 (min 10 (mathRoundQ score))

/-- The `parsed.strengths || ""` defaulting of the optional text fields (both
`undefined` and the empty string are falsy). -/
def orEmptyText : Option String → String
  | none => ""
  | some s => if s = "" then "" else s

/-- The field-assembly stage of `parsePersonalAnalysisResponse`: every score
independently clamped, text fields defaulted to the empty string.  This stage
never throws — only the JSON extraction before it can. -/
def finalizeAnalysis (parsed : ParsedAnalysis) : PersonalAnalysis :=
  { scores :=
      { proactivity := clampScore parsed.scores.proactivity
        logicalThinking := clampScore parsed.scores.logicalThinking
        creativity := clampScore parsed.scores.creativity
        careerValues := clampScore parsed.scores.careerValues
        cooperation := clampScore parsed.scores.cooperation
        coreValues := clampScore parsed.scores.coreValues }
    strengths := orEmptyText parsed.strengths
    improvements := orEmptyText parsed.improvements
    recommendations := orEmptyText parsed.recommendations }

/-- One try-block of `analyzePersonality` at attempt index `i`: the provider
call, the JSON extraction of `parsePersonalAnalysisResponse` and the `scores`
member access are summarised by the arbitrary per-attempt outcome
`attempts i`; a successful parse is finalized without any validation of the
text fields. -/
def attemptAnalysis (attempts : Nat → Except String ParsedAnalysis) (i : Nat) :
    Except String PersonalAnalysis :=
  match attempts i with
  | Except.error e => Except.error e
  | Except.ok parsed => Except.ok (finalizeAnalysis parsed)

/-- The retry recursion of `analyzePersonality`, fuelled exactly like
`generateFeedbackRec` (same `MAX_RETRIES = 2`); final failure surfaces
`BadRequestException("면접 답변 분석에 실패했습니다: " + e.message)`. -/
def analyzePersonalityRec (attempts : Nat → Except String ParsedAnalysis) :
    Nat → Nat → Except String PersonalAnalysis
  | retryCount, remaining =>
    match attemptAnalysis attempts retryCount, remaining with
    | Except.ok r, _ => Except.ok r
    | Except.error e, 0 => Except.error ("면접 답변 분석에 실패했습니다: " ++ e)
    | Except.error _, r + 1 => analyzePersonalityRec attempts (retryCount + 1) r

/-- `analyzePersonality(qaPairs)` (entered with `retryCount = 0`). -/
def analyzePersonality (attempts : Nat → Except String ParsedAnalysis) :
    Except String PersonalAnalysis :=
  analyzePersonalityRec attempts 0 MAX_RETRIES



/-! # Theorems -/

/-! ## C3: similarity kernel -/

/-- A self dot product (the `normA`/`normB` accumulator) is non-negative. -/
theorem dotProduct_self_nonneg (v : List ℝ) : 0 ≤ dotProduct v v := by
  induction v with
  | nil => simp [dotProduct]
  | cons a as ih =>
    have ha := mul_self_nonneg a
    simp only [dotProduct]
    linarith

/-- A self dot product with a non-zero entry is positive. -/
theorem dotProduct_self_pos {v : List ℝ} {x : ℝ} (hx : x ∈ v) (hx0 : x ≠ 0) :
    0 < dotProduct v v := by
  induction v with
  | nil => simp at hx
  | cons a as ih =>
    simp only [dotProduct]
    rcases List.mem_cons.1 hx with h | h
    · have hpos : 0 < a * a := mul_self_pos.2 (h ▸ hx0)
      have := dotProduct_self_nonneg as
      linarith
    · have := ih h
      have := mul_self_nonneg a
      linarith

/-- C3: `cosineSimilarity` returns exactly `0` whenever the two vectors have
different lengths, either vector is empty, or either vector has zero
magnitude (it is total, so it never divides by zero and never throws); and
for every vector with a non-zero entry, `cosineSimilarity v v = 1` — exactly,
in the real-number model, which is the "approximately 1" of the source's
floating point. -/
theorem cosineSimilarity_spec :
    (∀ vecA vecB : List ℝ, vecA.length ≠ vecB.length → cosineSimilarity vecA vecB = 0) ∧
    (∀ vecB : List ℝ, cosineSimilarity [] vecB = 0) ∧
    (∀ vecA : List ℝ, cosineSimilarity vecA [] = 0) ∧
    (∀ vecA vecB : List ℝ, dotProduct vecA vecA = 0 → cosineSimilarity vecA vecB = 0) ∧
    (∀ vecA vecB : List ℝ, dotProduct vecB vecB = 0 → cosineSimilarity vecA vecB = 0) ∧
    (∀ v : List ℝ, (∃ x ∈ v, x ≠ 0) → cosineSimilarity v v = 1) := by
  refine ⟨?_, ?_, ?_, ?_, ?_, ?_⟩
  · intro a b h
    unfold cosineSimilarity
    rw [if_pos (Or.inr (Or.inr h))]
  · intro b
    unfold cosineSimilarity
    rw [if_pos (Or.inl (by simp))]
  · intro a
    unfold cosineSimilarity
    rw [if_pos (Or.inr (Or.inl (by simp)))]
  · intro a b h
    unfold cosineSimilarity
    split_ifs with h1 h2
    · rfl
    · rfl
    · exact absurd (by rw [h, Real.sqrt_zero, zero_mul]) h2
  · intro a b h
    unfold cosineSimilarity
    split_ifs with h1 h2
    · rfl
    · rfl
    · exact absurd (by rw [h, Real.sqrt_zero, mul_zero]) h2
  · rintro v ⟨x, hx, hx0⟩
    have hpos := dotProduct_self_pos hx hx0
    have hne : v ≠ [] := by rintro rfl; simp at hx
    unfold cosineSimilarity
    rw [if_neg (by simp [List.length_eq_zero, hne])]
    rw [Real.mul_self_sqrt (le_of_lt hpos)]
    rw [if_neg (ne_of_gt hpos)]
    exact div_self (ne_of_gt hpos)

/-- Witness for C3 at concrete vectors. -/
theorem cosineSimilarity_spec_witness :
    cosineSimilarity [(1 : ℝ), 2] [3] = 0 ∧ cosineSimilarity [(0 : ℝ)] [7] = 0 ∧
    cosineSimilarity [(3 : ℝ)] [3] = 1 :=
  ⟨cosineSimilarity_spec.1 [(1 : ℝ), 2] [3] (by simp),
   cosineSimilarity_spec.2.2.2.1 [(0 : ℝ)] [7] (by simp [dotProduct]),
   cosineSimilarity_spec.2.2.2.2.2 [(3 : ℝ)] ⟨3, by simp, by norm_num⟩⟩

/-! ## C2: semantic sub-score range -/

/-- Counterexample to C2 as stated: `cosineSimilarity` can produce the
similarity `-1` (which lies in its range `[-1, 1]`), and the semantic
sub-score at that similarity is `-33`, outside `[0, 40]`. -/
theorem calculateSemanticScore_counterexample :
    cosineSimilarity [(1 : ℝ)] [(-1 : ℝ)] = -1 ∧
    calculateSemanticScore (cosineSimilarity [(1 : ℝ)] [(-1 : ℝ)]) = -33 := by
  have h : cosineSimilarity [(1 : ℝ)] [(-1 : ℝ)] = -1 := by
    unfold cosineSimilarity
    rw [if_neg (by simp)]
    simp only [dotProduct]
    norm_num [Real.sqrt_one]
  refine ⟨h, ?_⟩
  rw [h]
  unfold calculateSemanticScore mathRound
  rw [if_pos (by norm_num)]
  rw [show ((-1 : ℝ) * 33.33 + 1 / 2) = -3283 / 100 by norm_num]
  norm_num [Int.floor_eq_iff]

/-- C2 (amended): for every similarity in `[0, 1]` — in particular every
non-negative value `cosineSimilarity` produces — the semantic sub-score lies
in `[0, 40]`; the stated range `[0, 40]` fails only for negative
similarities. -/
theorem calculateSemanticScore_range (sim : ℝ) (h0 : 0 ≤ sim) (h1 : sim ≤ 1) :
    0 ≤ calculateSemanticScore sim ∧ calculateSemanticScore sim ≤ 40 := by
  unfold calculateSemanticScore mathRound
  split_ifs with hA hB hC
  · constructor
    · rw [Int.le_floor]; push_cast; nlinarith
    · have h41 : (⌊sim * 33.33 + 1 / 2⌋ : ℤ) < 41 := by
        rw [Int.floor_lt]; push_cast; nlinarith
      omega
  · constructor
    · rw [Int.le_floor]; push_cast; nlinarith
    · have h41 : (⌊10 + (sim - 0.3) * 100 + 1 / 2⌋ : ℤ) < 41 := by
        rw [Int.floor_lt]; push_cast; nlinarith
      omega
  · constructor
    · rw [Int.le_floor]; push_cast; nlinarith
    · have h41 : (⌊25 + (sim - 0.45) * 66.67 + 1 / 2⌋ : ℤ) < 41 := by
        rw [Int.floor_lt]; push_cast; nlinarith
      omega
  · have hC6 : (0.6 : ℝ) ≤ sim := not_lt.1 hC
    have hmin1 : min 5 ((sim - 0.6) * 12.5) ≤ 5 := min_le_left _ _
    have hmin0 : (0 : ℝ) ≤ min 5 ((sim - 0.6) * 12.5) :=
      le_min (by norm_num) (by nlinarith)
    constructor
    · rw [Int.le_floor]; push_cast; linarith
    · have h41 : (⌊35 + min 5 ((sim - 0.6) * 12.5) + 1 / 2⌋ : ℤ) < 41 := by
        rw [Int.floor_lt]; push_cast; linarith
      omega

/-- Witness for the amended C2 at the concrete similarity `1/2`. -/
theorem calculateSemanticScore_range_witness :
    0 ≤ calculateSemanticScore (1 / 2 : ℝ) ∧ calculateSemanticScore (1 / 2 : ℝ) ≤ 40 :=
  calculateSemanticScore_range (1 / 2) (by norm_num) (by norm_num)

/-! ## C8: monotonicity of the length cap -/

/-- C8: the length cap applied after clamping is monotone — at a shorter
trimmed length the cap is never less restrictive than at a longer one. -/
theorem applyLengthCap_monotone (len1 len2 : ℕ) (score : ℤ) (h : len1 ≤ len2) :
    applyLengthCap len1 score ≤ applyLengthCap len2 score := by
  unfold applyLengthCap
  split_ifs <;> omega

/-- Witness for C8: concrete lengths from the 45-cap and 70-cap tiers. -/
theorem applyLengthCap_monotone_witness :
    applyLengthCap 30 90 = 45 ∧ applyLengthCap 130 90 = 70 ∧
    applyLengthCap 30 90 ≤ applyLengthCap 130 90 :=
  ⟨by decide, by decide, applyLengthCap_monotone 30 130 90 (by decide)⟩

/-! ## C9: competency score clamping -/

/-- `clampScore` always lands in `[0, 10]`. -/
theorem clampScore_mem (x : ℚ) : 0 ≤ clampScore x ∧ clampScore x ≤ 10 := by
  unfold clampScore
  omega

/-- `clampScore` is the identity on integers already in `[0, 10]`. -/
theorem clampScore_intCast (n : ℤ) (h0 : 0 ≤ n) (h10 : n ≤ 10) :
    clampScore (n : ℚ) = n := by
  unfold clampScore mathRoundQ
  rw [add_comm, Int.floor_add_int]
  have hhalf : ⌊(1 / 2 : ℚ)⌋ = 0 := by
    rw [Int.floor_eq_iff]
    norm_num
  rw [hhalf]
  omega

/-- C9: every one of the six competency score fields produced by
`parsePersonalAnalysisResponse` is an integer (by type) in `[0, 10]` for every
numeric model output, and the clamping function is idempotent. -/
theorem personalAnalysis_scores_clamped :
    (∀ parsed : ParsedAnalysis,
      (0 ≤ (finalizeAnalysis parsed).scores.proactivity ∧
        (finalizeAnalysis parsed).scores.proactivity ≤ 10) ∧
      (0 ≤ (finalizeAnalysis parsed).scores.logicalThinking ∧
        (finalizeAnalysis parsed).scores.logicalThinking ≤ 10) ∧
      (0 ≤ (finalizeAnalysis parsed).scores.creativity ∧
        (finalizeAnalysis parsed).scores.creativity ≤ 10) ∧
      (0 ≤ (finalizeAnalysis parsed).scores.careerValues ∧
        (finalizeAnalysis parsed).scores.careerValues ≤ 10) ∧
      (0 ≤ (finalizeAnalysis parsed).scores.cooperation ∧
        (finalizeAnalysis parsed).scores.cooperation ≤ 10) ∧
      (0 ≤ (finalizeAnalysis parsed).scores.coreValues ∧
        (finalizeAnalysis parsed).scores.coreValues ≤ 10)) ∧
    (∀ x : ℚ, clampScore ((clampScore x : ℤ) : ℚ) = clampScore x) := by
  constructor
  · intro parsed
    exact ⟨clampScore_mem _, clampScore_mem _, clampScore_mem _, clampScore_mem _,
      clampScore_mem _, clampScore_mem _⟩
  · intro x
    exact clampScore_intCast _ (clampScore_mem x).1 (clampScore_mem x).2

/-! ## C1: final score range -/

/-- The length cap keeps a clamped score inside `[0, 100]`. -/
theorem applyLengthCap_range (len : ℕ) (s : ℤ) (h0 : 0 ≤ s) (h100 : s ≤ 100) :
    0 ≤ applyLengthCap len s ∧ applyLengthCap len s ≤ 100 := by
  unfold applyLengthCap
  split_ifs <;> omega

/-- C1: for every input and every provider behaviour (arbitrary embedding
vectors, arbitrary completeness verdict), the score of the `FeedbackResult`
returned by `calculateFeedback` lies in `[0, 100]`: the raw sub-score sum is
clamped to `[0, 100]`, the caps and the two subtractions only lower it with a
floor of `0`, and every early-exit gate returns a score in `[0, 100]`. -/
theorem calculateFeedback_score_range (stop : List (List Char)) (question answer : List Char)
    (questionEmbedding answerEmbedding referenceEmbedding : List ℝ) (isComplete : Bool) :
    0 ≤ (calculateFeedback stop question answer questionEmbedding answerEmbedding
      referenceEmbedding isComplete).1 ∧
    (calculateFeedback stop question answer questionEmbedding answerEmbedding
      referenceEmbedding isComplete).1 ≤ 100 := by
  unfold calculateFeedback
  by_cases h1 : (jsTrim answer).length < 10
  · rw [if_pos h1]
    exact ⟨by norm_num, by norm_num⟩
  rw [if_neg h1]
  by_cases h2 : isMeaninglessAnswer answer = true
  · rw [if_pos h2]
    exact ⟨by norm_num, by norm_num⟩
  rw [if_neg h2]
  by_cases h3 : (detectQuestionCopy stop question answer).isCopied = true
  · rw [if_pos h3]
    exact ⟨by norm_num, by norm_num⟩
  rw [if_neg h3]
  dsimp only
  by_cases h4 : cosineSimilarity questionEmbedding answerEmbedding < 0.25
  · rw [if_pos h4]
    by_cases h5 : cosineSimilarity questionEmbedding answerEmbedding < 0.15
    · rw [if_pos h5]
      exact ⟨by norm_num, by norm_num⟩
    · rw [if_neg h5]
      have hlo : (0.15 : ℝ) ≤ cosineSimilarity questionEmbedding answerEmbedding := not_lt.1 h5
      dsimp only
      constructor
      · rw [mathRound, Int.le_floor]
        push_cast
        linarith
      · have h101 : mathRound (cosineSimilarity questionEmbedding answerEmbedding * 20) < 101 := by
          rw [mathRound, Int.floor_lt]
          push_cast
          linarith
        omega
  · rw [if_neg h4]
    dsimp only
    set rel := calculateRelevanceScore stop question answer
      (cosineSimilarity questionEmbedding answerEmbedding) with hrel
    set sem := calculateSemanticScore
      (cosineSimilarity referenceEmbedding answerEmbedding) with hsem
    set q := (calculateQualityScore answer).1 with hq
    set p := (calculatePenalty answer).1 with hp
    set k := (checkRequiredKeywords stop question answer).1 with hk
    have hclamp : 0 ≤ max 0 (min 100 (rel + sem + (q : ℤ) - (p : ℤ))) ∧
        max 0 (min 100 (rel + sem + (q : ℤ) - (p : ℤ))) ≤ 100 := by omega
    have hcap := applyLengthCap_range (jsTrim answer).length _ hclamp.1 hclamp.2
    cases isComplete
    · rw [if_neg (by simp)]
      omega
    · rw [if_pos rfl]
      omega

/-! ## C4: vacuous keyword coverage -/

/-- C4: a question with zero extractable keywords has keyword coverage `1`,
so neither coverage-based penalty of `checkRequiredKeywords` fires and the
returned penalty consists only of the two non-coverage parts. -/
theorem keywordCoverage_vacuous (stop : List (List Char)) (question answer : List Char)
    (h : requiredQuestionWords stop question = []) :
    keywordCoverage stop question answer = 1 ∧
    complexCoveragePenalty stop question answer = 0 ∧
    lowCoveragePenalty stop question answer = 0 ∧
    (checkRequiredKeywords stop question answer).1 =
      complexLengthPenalty question answer + specificsPenalty question answer := by
  have hcov : keywordCoverage stop question answer = 1 := by
    unfold keywordCoverage
    rw [h]
    simp
  have hcc : complexCoveragePenalty stop question answer = 0 := by
    have hn : ¬ ((1 : ℚ) < 3 / 10) := by norm_num
    simp [complexCoveragePenalty, hcov, hn]
  have hlc : lowCoveragePenalty stop question answer = 0 := by
    simp [lowCoveragePenalty, h]
  refine ⟨hcov, hcc, hlc, ?_⟩
  unfold checkRequiredKeywords
  rw [hcc, hlc]
  omega

/-- Witness for C4: a question whose tokens are all shorter than 3 characters
yields no keyword for any stop-word set. -/
theorem keywordCoverage_vacuous_witness :
    requiredQuestionWords [] ("ab cd?".toList) = [] ∧
    keywordCoverage [] ("ab cd?".toList) ("hello world".toList) = 1 :=
  ⟨by decide, (keywordCoverage_vacuous [] ("ab cd?".toList) ("hello world".toList) (by decide)).1⟩

/-! ## C7: degenerate-input detector -/

/-- Counterexample to C7 as stated: a 25-character input with two meaningful
words (letter words of length ≥ 2) that matches no keyboard-mashing pattern,
which the detector still flags `meaningless = true` (one character's
frequency exceeds 80 % of the length). -/
theorem isMeaninglessAnswer_counterexample :
    ("nnnnnnnnnnnnnnnnnnnn nnnn".toList).length = 25 ∧
    2 ≤ meaningfulWordCount (jsTrim ("nnnnnnnnnnnnnnnnnnnn nnnn".toList)) ∧
    keyboardMashCheck (jsTrim ("nnnnnnnnnnnnnnnnnnnn nnnn".toList)) = false ∧
    isMeaninglessAnswer ("nnnnnnnnnnnnnnnnnnnn nnnn".toList) = true :=
  ⟨by decide, by decide, by decide, by decide⟩

/-- C7 (amended): `"aaaaaaaaaaaa"` and `"abcdabcdabcdabcdabcd"` are flagged
meaningless, and a 25-character answer with at least 2 meaningful words is
not flagged provided it also trips neither the character-dominance check nor
the prefix-repetition check (the extra provisos the counterexample forces)
nor a keyboard-mashing pattern. -/
theorem isMeaninglessAnswer_spec :
    isMeaninglessAnswer ("aaaaaaaaaaaa".toList) = true ∧
    isMeaninglessAnswer ("abcdabcdabcdabcdabcd".toList) = true ∧
    (∀ answer : List Char, (jsTrim answer).length = 25 →
      2 ≤ meaningfulWordCount (jsTrim answer) →
      charFreqCheck (jsTrim answer) = false →
      prefixRepeatCheck (jsTrim answer) = false →
      keyboardMashCheck (jsTrim answer) = false →
      isMeaninglessAnswer answer = false) := by
  refine ⟨by decide, by decide, ?_⟩
  intro answer hlen hwords hc hp hk
  have hfew : ¬ (meaningfulWordCount (jsTrim answer) < 2) := by omega
  simp [isMeaninglessAnswer, hc, hp, hk, fewMeaningfulWordsCheck, hfew]

/-- Witness for the amended C7: a 25-character English sentence. -/
theorem isMeaninglessAnswer_spec_witness :
    isMeaninglessAnswer ("the quick brown fox jumps".toList) = false :=
  isMeaninglessAnswer_spec.2.2 ("the quick brown fox jumps".toList)
    (by decide) (by decide) (by decide) (by decide) (by decide)

/-! ## C5: copy-detector rule 6 -/

/-- Counterexample to C5 as stated: with an empty stop-word set, a question
with 20 trailing exclamation marks (stripped by normalization) and an answer
built from the question's words.  Rule 6 fires — its word ratio is above 0.7
and its length condition compares the RAW strings (11 < 1.8·25) — although
the claim's condition on the NORMALIZED lengths (11 < 1.8·5) is false. -/
theorem detectQuestionCopy_counterexample :
    (detectQuestionCopy [] ("ab1cd!!!!!!!!!!!!!!!!!!!!".toList)
      ("ab2cd3ab4cd".toList)).isCopied = true ∧
    10 * copyMatchedCount [] ("ab1cd!!!!!!!!!!!!!!!!!!!!".toList) ("ab2cd3ab4cd".toList) >
      7 * (copyAnswerWords ("ab2cd3ab4cd".toList)).length ∧
    ¬ (10 * (normalizeForCopy ("ab2cd3ab4cd".toList)).length <
        18 * (normalizeForCopy ("ab1cd!!!!!!!!!!!!!!!!!!!!".toList)).length) :=
  ⟨by decide, by decide, by decide⟩

/-- C5 (amended): when rules 1–5 did not match, `detectQuestionCopy` flags
`isCopied` exactly when more than 70 % of the normalized answer's words occur
among the normalized question's stop-word-filtered words AND the raw answer
length is below 1.8 times the raw question length (the source compares the
un-normalized lengths; emptiness of either word list is subsumed, the ratio
being 0 then). -/
theorem detectQuestionCopy_rule6_spec (stop : List (List Char)) (question answer : List Char)
    (h1 : copyRule1Hit question answer = false)
    (h2 : copyRule2Hit question answer = false)
    (h3 : copyRule3Hit question answer = false)
    (h4 : copyRule4Hit question answer = false)
    (h5 : copyRule5Hit question answer = false) :
    (detectQuestionCopy stop question answer).isCopied = true ↔
      (10 * copyMatchedCount stop question answer > 7 * (copyAnswerWords answer).length ∧
       10 * answer.length < 18 * question.length) := by
  have key : copyRule6Hit stop question answer = true ↔
      (10 * copyMatchedCount stop question answer > 7 * (copyAnswerWords answer).length ∧
       10 * answer.length < 18 * question.length) := by
    unfold copyRule6Hit
    simp only [Bool.and_eq_true, decide_eq_true_eq]
    constructor
    · rintro ⟨⟨⟨_, _⟩, hm⟩, hl⟩
      exact ⟨hm, hl⟩
    · rintro ⟨hm, hl⟩
      have haw : 0 < (copyAnswerWords answer).length := by
        rcases Nat.eq_zero_or_pos (copyAnswerWords answer).length with h0 | h0
        · exfalso
          have hle : copyMatchedCount stop question answer ≤ (copyAnswerWords answer).length :=
            List.countP_le_length _
          omega
        · exact h0
      have hqw : 0 < (copyQuestionWords stop question).length := by
        rcases Nat.eq_zero_or_pos (copyQuestionWords stop question).length with h0 | h0
        · exfalso
          have hqnil : copyQuestionWords stop question = [] := List.length_eq_zero.1 h0
          have hm0 : copyMatchedCount stop question answer = 0 := by
            unfold copyMatchedCount
            rw [hqnil]
            simp
          omega
        · exact h0
      exact ⟨⟨⟨hqw, haw⟩, hm⟩, hl⟩
  unfold detectQuestionCopy
  rw [h1, h2, h3, h4, h5]
  simp only [Bool.false_eq_true, if_false]
  by_cases h6 : copyRule6Hit stop question answer = true
  · rw [if_pos h6]
    exact iff_of_true rfl (key.1 h6)
  · rw [if_neg h6]
    constructor
    · intro hfalse
      exact absurd hfalse (by simp)
    · intro hr
      exact absurd (key.2 hr) h6

/-- Witness for the amended C5: a concrete pair on which rules 1–5 miss and
rule 6 fires. -/
theorem detectQuestionCopy_rule6_witness :
    (detectQuestionCopy [] ("ab1cd".toList) ("ab2cd".toList)).isCopied = true :=
  (detectQuestionCopy_rule6_spec [] ("ab1cd".toList) ("ab2cd".toList)
    (by decide) (by decide) (by decide) (by decide) (by decide)).2 ⟨by decide, by decide⟩

/-! ## C6: narrative-feedback retry and validation -/

/-- A successfully validated feedback has three non-empty fields. -/
theorem validateFeedback_ok_nonempty {r : RawFeedback} {fb : AiFeedback}
    (h : validateFeedback r = Except.ok fb) :
    fb.good ≠ "" ∧ fb.improvement ≠ "" ∧ fb.recommendation ≠ "" := by
  obtain ⟨og, oi, orc⟩ := r
  cases og with
  | none => simp [validateFeedback] at h
  | some g =>
    cases oi with
    | none => simp [validateFeedback] at h
    | some im =>
      cases orc with
      | none => simp [validateFeedback] at h
      | some rc =>
        unfold validateFeedback at h
        dsimp only at h
        by_cases hcond : (g = "" ∨ im = "" ∨ rc = "")
        · rw [if_pos hcond] at h
          exact absurd h (by simp)
        · rw [if_neg hcond] at h
          obtain rfl : AiFeedback.mk g im rc = fb := Except.ok.inj h
          push_neg at hcond
          exact ⟨hcond.1, hcond.2.1, hcond.2.2⟩

/-- Unfolding step of the retry recursion: a successful attempt returns
immediately, whatever the remaining budget. -/
theorem generateFeedbackRec_ok {attempts : Nat → Except String RawFeedback}
    {retryCount : Nat} {fb : AiFeedback} (remaining : Nat)
    (h : attemptFeedback attempts retryCount = Except.ok fb) :
    generateFeedbackRec attempts retryCount remaining = Except.ok fb := by
  rw [generateFeedbackRec.eq_def]
  dsimp only
  rw [h]

/-- Unfolding step of the retry recursion: a failed attempt with budget left
retries with the next attempt index. -/
theorem generateFeedbackRec_retry {attempts : Nat → Except String RawFeedback}
    {retryCount : Nat} {e : String} (r : Nat)
    (h : attemptFeedback attempts retryCount = Except.error e) :
    generateFeedbackRec attempts retryCount (r + 1) =
      generateFeedbackRec attempts (retryCount + 1) r := by
  rw [generateFeedbackRec.eq_def]
  dsimp only
  rw [h]

/-- Unfolding step of the retry recursion: a failed attempt with no budget
left surfaces the generation-failure error. -/
theorem generateFeedbackRec_exhausted {attempts : Nat → Except String RawFeedback}
    {retryCount : Nat} {e : String}
    (h : attemptFeedback attempts retryCount = Except.error e) :
    generateFeedbackRec attempts retryCount 0 =
      Except.error ("AI 피드백 생성에 실패했습니다: " ++ e) := by
  rw [generateFeedbackRec.eq_def]
  dsimp only
  rw [h]

/-- A successful attempt (provider call + parse + validation) yields three
non-empty fields. -/
theorem attemptFeedback_ok_nonempty {attempts : Nat → Except String RawFeedback}
    {i : Nat} {fb : AiFeedback} (h : attemptFeedback attempts i = Except.ok fb) :
    fb.good ≠ "" ∧ fb.improvement ≠ "" ∧ fb.recommendation ≠ "" := by
  unfold attemptFeedback at h
  cases ha : attempts i with
  | error e => rw [ha] at h; simp at h
  | ok raw => rw [ha] at h; exact validateFeedback_ok_nonempty h

/-- C6: `generateFeedback` retries at most `MAX_RETRIES = 2` times after the
first attempt; when the attempts with indices `0, 1, 2` all fail (any parse
failure or missing/empty field) it surfaces the generation-failure
`BadRequestException` built from the last error; and every successfully
returned `AiFeedback` comes from one of those three attempts and has all
three fields non-empty — never an unparsed or partially-populated payload. -/
theorem generateFeedback_retry_spec (attempts : Nat → Except String RawFeedback) :
    ((∀ i, i ≤ MAX_RETRIES → ∃ e, attemptFeedback attempts i = Except.error e) →
      ∃ e, generateFeedback attempts = Except.error ("AI 피드백 생성에 실패했습니다: " ++ e)) ∧
    (∀ fb, generateFeedback attempts = Except.ok fb →
      (fb.good ≠ "" ∧ fb.improvement ≠ "" ∧ fb.recommendation ≠ "") ∧
      ∃ i, i ≤ MAX_RETRIES ∧ attemptFeedback attempts i = Except.ok fb) := by
  constructor
  · intro h
    obtain ⟨e0, h0⟩ := h 0 (by norm_num [MAX_RETRIES])
    obtain ⟨e1, h1⟩ := h 1 (by norm_num [MAX_RETRIES])
    obtain ⟨e2, h2⟩ := h 2 (by norm_num [MAX_RETRIES])
    refine ⟨e2, ?_⟩
    unfold generateFeedback MAX_RETRIES
    rw [generateFeedbackRec_retry 1 h0, generateFeedbackRec_retry 0 h1,
      generateFeedbackRec_exhausted h2]
  · intro fb hfb
    unfold generateFeedback MAX_RETRIES at hfb
    cases h0 : attemptFeedback attempts 0 with
    | ok fb0 =>
      rw [generateFeedbackRec_ok 2 h0] at hfb
      obtain rfl : fb0 = fb := Except.ok.inj hfb
      exact ⟨attemptFeedback_ok_nonempty h0, 0, by norm_num [MAX_RETRIES], h0⟩
    | error e0 =>
      rw [generateFeedbackRec_retry 1 h0] at hfb
      cases h1 : attemptFeedback attempts 1 with
      | ok fb1 =>
        rw [generateFeedbackRec_ok 1 h1] at hfb
        obtain rfl : fb1 = fb := Except.ok.inj hfb
        exact ⟨attemptFeedback_ok_nonempty h1, 1, by norm_num [MAX_RETRIES], h1⟩
      | error e1 =>
        rw [generateFeedbackRec_retry 0 h1] at hfb
        cases h2 : attemptFeedback attempts 2 with
        | ok fb2 =>
          rw [generateFeedbackRec_ok 0 h2] at hfb
          obtain rfl : fb2 = fb := Except.ok.inj hfb
          exact ⟨attemptFeedback_ok_nonempty h2, 2, by norm_num [MAX_RETRIES], h2⟩
        | error e2 =>
          rw [generateFeedbackRec_exhausted h2] at hfb
          exact absurd hfb (by simp)

/-- Witness for C6: a provider whose output never parses exhausts the retry
budget and surfaces the generation-failure error. -/
theorem generateFeedback_retry_spec_witness :
    ∃ e, generateFeedback (fun _ => Except.error "malformed") =
      Except.error ("AI 피드백 생성에 실패했습니다: " ++ e) :=
  (generateFeedback_retry_spec (fun _ => Except.error "malformed")).1
    (fun _ _ => ⟨"malformed", rfl⟩)

/-! ## C10: lenient text fields in the competency parse -/

/-- C10: when the model response parses with a `scores` object,
`parsePersonalAnalysisResponse` succeeds on the first attempt even when the
text fields are missing or empty — they default to `""` and trigger no retry,
only the numeric score fields being processed — whereas the narrative
feedback path raises (and hence retries) on a missing or empty field. -/
theorem personalAnalysis_lenient_text_fields :
    (∀ (attempts : Nat → Except String ParsedAnalysis) (parsed : ParsedAnalysis),
      attempts 0 = Except.ok parsed →
      analyzePersonality attempts = Except.ok (finalizeAnalysis parsed)) ∧
    (∀ parsed : ParsedAnalysis,
      (parsed.strengths = none ∨ parsed.strengths = some "") →
      (finalizeAnalysis parsed).strengths = "") ∧
    (∀ parsed : ParsedAnalysis,
      (parsed.improvements = none ∨ parsed.improvements = some "") →
      (finalizeAnalysis parsed).improvements = "") ∧
    (∀ parsed : ParsedAnalysis,
      (parsed.recommendations = none ∨ parsed.recommendations = some "") →
      (finalizeAnalysis parsed).recommendations = "") ∧
    (∀ raw : RawFeedback,
      (raw.good = none ∨ raw.good = some "") →
      validateFeedback raw = Except.error "Invalid feedback structure") := by
  refine ⟨?_, ?_, ?_, ?_, ?_⟩
  · intro attempts parsed h
    have h0 : attemptAnalysis attempts 0 = Except.ok (finalizeAnalysis parsed) := by
      unfold attemptAnalysis
      rw [h]
    unfold analyzePersonality MAX_RETRIES
    rw [analyzePersonalityRec.eq_def]
    dsimp only
    rw [h0]
  · intro parsed h
    rcases h with h | h <;> simp [finalizeAnalysis, orEmptyText, h]
  · intro parsed h
    rcases h with h | h <;> simp [finalizeAnalysis, orEmptyText, h]
  · intro parsed h
    rcases h with h | h <;> simp [finalizeAnalysis, orEmptyText, h]
  · intro raw h
    obtain ⟨og, oi, orc⟩ := raw
    rcases h with h | h <;> subst h <;> cases oi <;> cases orc <;> simp [validateFeedback]

/-- Witness for C10: a parsed response with out-of-range scores and
missing/empty text fields succeeds immediately, while the narrative validator
rejects an empty `good` field. -/
theorem personalAnalysis_lenient_text_fields_witness :
    analyzePersonality (fun _ =>
        Except.ok (ParsedAnalysis.mk ⟨11, -3, 5 / 2, 0, 10, 7⟩ none (some "") none)) =
      Except.ok (finalizeAnalysis
        (ParsedAnalysis.mk ⟨11, -3, 5 / 2, 0, 10, 7⟩ none (some "") none)) ∧
    (finalizeAnalysis (ParsedAnalysis.mk ⟨11, -3, 5 / 2, 0, 10, 7⟩ none (some "") none)).strengths
      = "" ∧
    validateFeedback (RawFeedback.mk (some "") (some "a") (some "b")) =
      Except.error "Invalid feedback structure" :=
  ⟨personalAnalysis_lenient_text_fields.1 _ _ rfl,
   personalAnalysis_lenient_text_fields.2.1 _ (Or.inl rfl),
   personalAnalysis_lenient_text_fields.2.2.2.2 _ (Or.inr rfl)⟩
